import Mathlib

/-!
Shallow embedding of `verification/verify_script.py`, whose single function
`verify_date_picker` drives a headless browser through a fixed sequence of
Playwright calls.

Modelling choices:
* Each Playwright call the script makes (`launch`, `new_page`, `goto`,
  `wait_for_selector`, `wait_for_timeout`, `evaluate`, `screenshot`, `close`)
  is an `Op`.  The three JavaScript snippets passed to `page.evaluate` are
  distinguished by the `JsScript` tag.
* The external world is an `Env`: for every call site it records whether that
  call returns normally (with its value) or raises a Python `Exception`
  (carrying the message that `f"Error: {e}"` would print).  `Env` also carries
  ambient data the script never reads — the dialog's open state *before* the
  click, and the process command line — so that non-interference statements
  are not vacuous.
* Running the function yields a `RunResult`: the ordered trace of events
  (operations invoked and lines printed to stdout) and, when an exception
  escapes `verify_date_picker`, its message.  An operation that raises is
  still recorded in the trace (the call was made); in particular a
  `screenshot` op in the trace means the screenshot was requested.
* `browser.close()` in the `finally` block is assumed to return normally, and
  only `Exception`-derived errors are modelled (the script's `except Exception`
  never sees `KeyboardInterrupt` and the like).
-/

deriving instance DecidableEq for Except

namespace VerifyScript

/-- Tags for the three JavaScript snippets the script passes to
`page.evaluate`: the shadow-DOM probe for the trailing icon button, the
click on that button, and the read of `md-date-picker-dialog.open`. -/
inductive JsScript
  | hasIconProbe
  | clickIconButton
  | dialogOpenProbe
deriving DecidableEq

/-- One browser-level operation invoked by the script. -/
inductive Op
  | launch
  | newPage
  | goto (url : String)
  | waitForSelector (sel : String)
  | waitForTimeout (ms : Nat)
  | evaluate (script : JsScript)
  | screenshot (path : String)
  | close
deriving DecidableEq

/-- An observable event of one run: a browser operation being invoked, or a
line printed to standard output. -/
inductive Event
  | op (o : Op)
  | print (line : String)
deriving DecidableEq

/-- The demo-page URL hard-coded in `page.goto`. -/
def pageUrl : String := "http://localhost:3000/demo/date-picker-test.html"

/-- The selector passed to `page.wait_for_selector`. -/
def fieldSelector : String := "md-text-field"

/-- Fixed path of the first screenshot. -/
def beforePath : String := "verification/before_click.png"

/-- Fixed path of the second screenshot. -/
def afterPath : String := "verification/after_click.png"

/-- Python rendering of a boolean inside an f-string. -/
def pyBool (b : Bool) : String := if b then "True" else "False"

/-- The line `print(f"Has trailing icon button: {has_icon}")` produces. -/
def hasIconLine (b : Bool) : String := "Has trailing icon button: " ++ pyBool b

/-- The line `print(f"Dialog open after click: {is_open}")` produces. -/
def dialogOpenLine (b : Bool) : String := "Dialog open after click: " ++ pyBool b

/-- The line `print(f"Error: {e}")` produces in the `except` handler. -/
def errorLine (e : String) : String := "Error: " ++ e

/-- The outcome of every external call the script can make, plus ambient
data the script never reads.  `Except.error e` means the call raises a Python
`Exception` whose message is `e`; `Except.ok v` means it returns `v`. -/
structure Env where
  launchRes : Except String Unit
  newPageRes : Except String Unit
  gotoRes : Except String Unit
  waitSelectorRes : Except String Unit
  waitTimeout2000Res : Except String Unit
  hasIconRes : Except String Bool
  beforeShotRes : Except String Unit
  clickRes : Except String Unit
  waitTimeout500Res : Except String Unit
  dialogOpenRes : Except String Bool
  afterShotRes : Except String Unit
  /-- Ambient: the dialog's `open` state before the click.  The script
  performs no browser call that reads it. -/
  dialogOpenBeforeClick : Bool
  /-- Ambient: the process command line.  The script reads no arguments. -/
  commandLineArgs : List String
deriving DecidableEq

/-- Result of one run: the ordered event trace and, if an exception escaped
`verify_date_picker` to its caller, that exception's message. -/
structure RunResult where
  events : List Event
  raised : Option String
deriving DecidableEq

/-- Sequencing helper for one statement of the `try` block: record the
operation, then either continue with its value or stop with the raised
exception (to be caught by the `except` clause). -/
def andThen {α : Type} (o : Op) (res : Except String α)
    (k : α → List Event × Option String) : List Event × Option String :=
  match res with
  | .error e => ([Event.op o], some e)
  | .ok v =>
    let r := k v
    (Event.op o :: r.1, r.2)

/-- Record an infallible event (a `print`) before the rest of the block. -/
def emit (e : Event) (r : List Event × Option String) :
    List Event × Option String :=
  (e :: r.1, r.2)

/-- The `try` block of `verify_date_picker`, line by line:
`goto`; `wait_for_selector("md-text-field")`; `wait_for_timeout(2000)`;
`evaluate` (icon probe); `print` `has_icon`; `screenshot` (before);
`evaluate` (click); `wait_for_timeout(500)`; `evaluate` (dialog probe);
`print` `is_open`; `screenshot` (after).  Returns the events of the block
and the message of the exception that aborted it, if any. -/
def tryBody (env : Env) : List Event × Option String :=
  andThen (Op.goto pageUrl) env.gotoRes fun _ =>
  andThen (Op.waitForSelector fieldSelector) env.waitSelectorRes fun _ =>
  andThen (Op.waitForTimeout 2000) env.waitTimeout2000Res fun _ =>
  andThen (Op.evaluate JsScript.hasIconProbe) env.hasIconRes fun has_icon =>
  emit (Event.print (hasIconLine has_icon))
  (andThen (Op.screenshot beforePath) env.beforeShotRes fun _ =>
   andThen (Op.evaluate JsScript.clickIconButton) env.clickRes fun _ =>
   andThen (Op.waitForTimeout 500) env.waitTimeout500Res fun _ =>
   andThen (Op.evaluate JsScript.dialogOpenProbe) env.dialogOpenRes fun is_open =>
   emit (Event.print (dialogOpenLine is_open))
   (andThen (Op.screenshot afterPath) env.afterShotRes fun _ =>
    ([], none)))

/-- The whole function.  `launch` and `new_page` sit *before* the
`try`/`except`/`finally`, so an exception in either propagates to the caller
and skips `browser.close()`.  An exception inside the `try` block is caught,
one `Error:` line is printed, and the `finally` branch closes the browser;
the function then returns normally. -/
def verify_date_picker (env : Env) : RunResult :=
  match env.launchRes with
  | .error e => { events := [Event.op Op.launch], raised := some e }
  | .ok _ =>
    match env.newPageRes with
    | .error e =>
      { events := [Event.op Op.launch, Event.op Op.newPage], raised := some e }
    | .ok _ =>
      { events :=
          [Event.op Op.launch, Event.op Op.newPage]
            ++ (tryBody env).1
            ++ (match (tryBody env).2 with
                | none => []
                | some e => [Event.print (errorLine e)])
            ++ [Event.op Op.close]
        raised := none }

/-- The browser operations of a run, in invocation order. -/
def browserOps (r : RunResult) : List Op :=
  r.events.filterMap fun e =>
    match e with
    | Event.op o => some o
    | Event.print _ => none

/-- The lines a run prints to standard output, in order. -/
def stdoutLines (r : RunResult) : List String :=
  r.events.filterMap fun e =>
    match e with
    | Event.op _ => none
    | Event.print s => some s

/-- The screenshot paths a run requests, in order. -/
def screenshotPaths (r : RunResult) : List String :=
  r.events.filterMap fun e =>
    match e with
    | Event.op (Op.screenshot p) => some p
    | _ => none

/-- A user-visible output item: a stdout line or a screenshot file write. -/
inductive OutItem
  | line (s : String)
  | file (path : String)
deriving DecidableEq

/-- The user-visible outputs of a run (stdout lines and screenshot writes),
in order. -/
def outputs (r : RunResult) : List OutItem :=
  r.events.filterMap fun e =>
    match e with
    | Event.print s => some (OutItem.line s)
    | Event.op (Op.screenshot p) => some (OutItem.file p)
    | Event.op _ => none

/-- Events of the `try` block up to and including the icon-probe `evaluate`
(the last statement before the first `print`). -/
def bodyThroughIconProbe : List Event :=
  [Event.op (Op.goto pageUrl), Event.op (Op.waitForSelector fieldSelector),
   Event.op (Op.waitForTimeout 2000), Event.op (Op.evaluate JsScript.hasIconProbe)]

/-- Events of the `try` block up to and including the first screenshot,
given that the icon probe returned `b`. -/
def bodyThroughBeforeShot (b : Bool) : List Event :=
  bodyThroughIconProbe ++
    [Event.print (hasIconLine b), Event.op (Op.screenshot beforePath)]

/-- Events of the `try` block up to and including the dialog-state
`evaluate`, given that the icon probe returned `b`. -/
def bodyThroughDialogProbe (b : Bool) : List Event :=
  bodyThroughBeforeShot b ++
    [Event.op (Op.evaluate JsScript.clickIconButton),
     Event.op (Op.waitForTimeout 500),
     Event.op (Op.evaluate JsScript.dialogOpenProbe)]

/-- Events of the whole `try` block when every statement succeeds, the icon
probe returning `b` and the dialog probe returning `b2`. -/
def bodyFull (b b2 : Bool) : List Event :=
  bodyThroughDialogProbe b ++
    [Event.print (dialogOpenLine b2), Event.op (Op.screenshot afterPath)]

/-- The full operation sequence of the code apart from the final `close`:
launch, new page, goto, wait for selector, 2000 ms wait, icon probe, first
screenshot, click, 500 ms wait, dialog probe, second screenshot. -/
def mainOps : List Op :=
  [Op.launch, Op.newPage, Op.goto pageUrl, Op.waitForSelector fieldSelector,
   Op.waitForTimeout 2000, Op.evaluate JsScript.hasIconProbe,
   Op.screenshot beforePath, Op.evaluate JsScript.clickIconButton,
   Op.waitForTimeout 500, Op.evaluate JsScript.dialogOpenProbe,
   Op.screenshot afterPath]

/-- The operation order asserted by claim C3, transcribed step for step from
the spec's words: launch browser, open the page, wait for the selector,
probe the shadow DOM, screenshot, click, wait, probe the dialog state,
screenshot, close — with nothing in between.  Written from the spec, not
from the code, for comparison with the code's trace. -/
def specClaimedOps : List Op :=
  [Op.launch, Op.goto pageUrl, Op.waitForSelector fieldSelector,
   Op.evaluate JsScript.hasIconProbe, Op.screenshot beforePath,
   Op.evaluate JsScript.clickIconButton, Op.waitForTimeout 500,
   Op.evaluate JsScript.dialogOpenProbe, Op.screenshot afterPath, Op.close]

/-- The console-output shape asserted by claim C4, transcribed from the
spec's words: either exactly the two diagnostic lines, or a single error
message.  Written from the spec, not from the code. -/
def specConsoleShape (ls : List String) : Prop :=
  (∃ b b2, ls = [hasIconLine b, dialogOpenLine b2]) ∨ ∃ e, ls = [errorLine e]

/-- The success-path output order asserted by claim C8, transcribed from the
spec's words: icon line, before-click screenshot, after-click screenshot,
dialog line.  Written from the spec, not from the code. -/
def specSuccessOutputs (b b2 : Bool) : List OutItem :=
  [OutItem.line (hasIconLine b), OutItem.file beforePath,
   OutItem.file afterPath, OutItem.line (dialogOpenLine b2)]

/-- The success-path output order the code actually produces: icon line,
before-click screenshot, dialog line, after-click screenshot. -/
def codeSuccessOutputs (b b2 : Bool) : List OutItem :=
  [OutItem.line (hasIconLine b), OutItem.file beforePath,
   OutItem.line (dialogOpenLine b2), OutItem.file afterPath]

/-- An environment in which every external call succeeds, the icon is found
and the dialog reports open after the click. -/
def envAllOk : Env :=
  { launchRes := Except.ok ()
    newPageRes := Except.ok ()
    gotoRes := Except.ok ()
    waitSelectorRes := Except.ok ()
    waitTimeout2000Res := Except.ok ()
    hasIconRes := Except.ok true
    beforeShotRes := Except.ok ()
    clickRes := Except.ok ()
    waitTimeout500Res := Except.ok ()
    dialogOpenRes := Except.ok true
    afterShotRes := Except.ok ()
    dialogOpenBeforeClick := false
    commandLineArgs := [] }

/-- Environment in which `p.chromium.launch` succeeds but
`browser.new_page` raises. -/
def envNewPageRaises : Env := { envAllOk with newPageRes := Except.error "new_page failed" }

/-- Environment in which `page.goto` raises (server not running). -/
def envGotoRefused : Env :=
  { envAllOk with gotoRes := Except.error "net::ERR_CONNECTION_REFUSED" }

/-- Environment in which `page.goto` raises, for the C5 counterexample. -/
def envGotoDown : Env :=
  { envAllOk with gotoRes := Except.error "net::ERR_CONNECTION_REFUSED" }

/-- Environment in which the first `page.screenshot` raises, after the icon
line has already been printed. -/
def envBeforeShotRaises : Env :=
  { envAllOk with beforeShotRes := Except.error "screenshot failed" }

/-- Environment in which the second `page.screenshot` raises, after both
diagnostic lines have been printed. -/
def envAfterShotRaises : Env :=
  { envAllOk with afterShotRes := Except.error "disk full" }

/-- Environment in which the click `evaluate` raises. -/
def envClickRaises : Env :=
  { envAllOk with clickRes := Except.error "button is null" }

/-- Environment for the C9 witness: page creation raises. -/
def envPageCreationRaises : Env :=
  { envAllOk with newPageRes := Except.error "browser has been closed" }

/-- Environment in which the dialog was closed before the click (so a
reported open state of `true` means the click toggled it). -/
def envDialogWasClosed : Env := { envAllOk with dialogOpenBeforeClick := false }

/-- Environment identical to `envDialogWasClosed` except that the dialog was
already open before the click (so its open state did *not* toggle). -/
def envDialogWasOpen : Env := { envAllOk with dialogOpenBeforeClick := true }

/-- Environment identical to `envAllOk` on every call outcome but with a
different ambient command line and pre-click dialog state. -/
def envOtherAmbient : Env :=
  { envAllOk with commandLineArgs := ["--verbose"], dialogOpenBeforeClick := true }

/-- Exhaustive classification of the `try` block: it either aborts at one of
its nine fallible statements (with the trace accumulated so far) or runs to
completion. -/
lemma tryBody_cases (env : Env) :
    (∃ e, env.gotoRes = Except.error e ∧
      tryBody env = ([Event.op (Op.goto pageUrl)], some e)) ∨
    (∃ e, env.waitSelectorRes = Except.error e ∧
      tryBody env = (bodyThroughIconProbe.take 2, some e)) ∨
    (∃ e, env.waitTimeout2000Res = Except.error e ∧
      tryBody env = (bodyThroughIconProbe.take 3, some e)) ∨
    (∃ e, env.hasIconRes = Except.error e ∧
      tryBody env = (bodyThroughIconProbe, some e)) ∨
    (∃ b e, env.hasIconRes = Except.ok b ∧ env.beforeShotRes = Except.error e ∧
      tryBody env = (bodyThroughBeforeShot b, some e)) ∨
    (∃ b e, env.hasIconRes = Except.ok b ∧ env.clickRes = Except.error e ∧
      tryBody env = ((bodyThroughDialogProbe b).take 7, some e)) ∨
    (∃ b e, env.hasIconRes = Except.ok b ∧ env.waitTimeout500Res = Except.error e ∧
      tryBody env = ((bodyThroughDialogProbe b).take 8, some e)) ∨
    (∃ b e, env.hasIconRes = Except.ok b ∧ env.dialogOpenRes = Except.error e ∧
      tryBody env = (bodyThroughDialogProbe b, some e)) ∨
    (∃ b b2 e, env.hasIconRes = Except.ok b ∧ env.dialogOpenRes = Except.ok b2 ∧
      env.afterShotRes = Except.error e ∧
      tryBody env = (bodyFull b b2, some e)) ∨
    (∃ b b2, env.hasIconRes = Except.ok b ∧ env.dialogOpenRes = Except.ok b2 ∧
      tryBody env = (bodyFull b b2, none)) := by
  rcases hg : env.gotoRes with e | u
  · exact Or.inl ⟨e, rfl, by simp [tryBody, andThen, hg]⟩
  rcases hs : env.waitSelectorRes with e | u2
  · refine Or.inr (Or.inl ⟨e, rfl, ?_⟩)
    simp [tryBody, andThen, hg, hs, bodyThroughIconProbe]
  rcases hw1 : env.waitTimeout2000Res with e | u3
  · refine Or.inr (Or.inr (Or.inl ⟨e, rfl, ?_⟩))
    simp [tryBody, andThen, hg, hs, hw1, bodyThroughIconProbe]
  rcases hi : env.hasIconRes with e | b
  · refine Or.inr (Or.inr (Or.inr (Or.inl ⟨e, rfl, ?_⟩)))
    simp [tryBody, andThen, hg, hs, hw1, hi, bodyThroughIconProbe]
  rcases h1 : env.beforeShotRes with e | u4
  · refine Or.inr (Or.inr (Or.inr (Or.inr (Or.inl ⟨b, e, rfl, rfl, ?_⟩))))
    simp [tryBody, andThen, emit, hg, hs, hw1, hi, h1, bodyThroughBeforeShot,
      bodyThroughIconProbe]
  rcases hc : env.clickRes with e | u5
  · refine Or.inr (Or.inr (Or.inr (Or.inr (Or.inr (Or.inl ⟨b, e, rfl, rfl, ?_⟩)))))
    simp [tryBody, andThen, emit, hg, hs, hw1, hi, h1, hc, bodyThroughDialogProbe,
      bodyThroughBeforeShot, bodyThroughIconProbe]
  rcases hw2 : env.waitTimeout500Res with e | u6
  · refine Or.inr (Or.inr (Or.inr (Or.inr (Or.inr (Or.inr (Or.inl ⟨b, e, rfl, rfl, ?_⟩))))))
    simp [tryBody, andThen, emit, hg, hs, hw1, hi, h1, hc, hw2, bodyThroughDialogProbe,
      bodyThroughBeforeShot, bodyThroughIconProbe]
  rcases hd : env.dialogOpenRes with e | b2
  · refine Or.inr (Or.inr (Or.inr (Or.inr (Or.inr (Or.inr (Or.inr (Or.inl
      ⟨b, e, rfl, rfl, ?_⟩)))))))
    simp [tryBody, andThen, emit, hg, hs, hw1, hi, h1, hc, hw2, hd,
      bodyThroughDialogProbe, bodyThroughBeforeShot, bodyThroughIconProbe]
  rcases h2 : env.afterShotRes with e | u7
  · refine Or.inr (Or.inr (Or.inr (Or.inr (Or.inr (Or.inr (Or.inr (Or.inr (Or.inl
      ⟨b, b2, e, rfl, rfl, rfl, ?_⟩))))))))
    simp [tryBody, andThen, emit, hg, hs, hw1, hi, h1, hc, hw2, hd, h2, bodyFull,
      bodyThroughDialogProbe, bodyThroughBeforeShot, bodyThroughIconProbe]
  · refine Or.inr (Or.inr (Or.inr (Or.inr (Or.inr (Or.inr (Or.inr (Or.inr (Or.inr
      ⟨b, b2, rfl, rfl, ?_⟩))))))))
    simp [tryBody, andThen, emit, hg, hs, hw1, hi, h1, hc, hw2, hd, h2, bodyFull,
      bodyThroughDialogProbe, bodyThroughBeforeShot, bodyThroughIconProbe]

/-- When `launch` and `new_page` succeed, the run is the `try` block framed
by the fixed prelude, the conditional `Error:` line, and the `finally`
close; no exception escapes. -/
lemma verify_ok_ok (env : Env) (hl : env.launchRes = Except.ok ())
    (hn : env.newPageRes = Except.ok ()) :
    verify_date_picker env =
      { events :=
          [Event.op Op.launch, Event.op Op.newPage]
            ++ (tryBody env).1
            ++ (match (tryBody env).2 with
                | none => []
                | some e => [Event.print (errorLine e)])
            ++ [Event.op Op.close]
        raised := none } := by
  simp [verify_date_picker, hl, hn]

/-- When every statement of the `try` block succeeds, its trace is the full
body. -/
lemma tryBody_all_ok (env : Env) (b b2 : Bool)
    (hg : env.gotoRes = Except.ok ()) (hs : env.waitSelectorRes = Except.ok ())
    (hw1 : env.waitTimeout2000Res = Except.ok ()) (hi : env.hasIconRes = Except.ok b)
    (h1 : env.beforeShotRes = Except.ok ()) (hc : env.clickRes = Except.ok ())
    (hw2 : env.waitTimeout500Res = Except.ok ()) (hd : env.dialogOpenRes = Except.ok b2)
    (h2 : env.afterShotRes = Except.ok ()) :
    tryBody env = (bodyFull b b2, none) := by
  simp [tryBody, andThen, emit, hg, hs, hw1, hi, h1, hc, hw2, hd, h2, bodyFull,
    bodyThroughDialogProbe, bodyThroughBeforeShot, bodyThroughIconProbe]

/-- On an all-succeeding environment the operation trace is `mainOps`
followed by the `finally` close. -/
lemma browserOps_all_ok (env : Env) (b b2 : Bool)
    (hl : env.launchRes = Except.ok ()) (hn : env.newPageRes = Except.ok ())
    (hg : env.gotoRes = Except.ok ()) (hs : env.waitSelectorRes = Except.ok ())
    (hw1 : env.waitTimeout2000Res = Except.ok ()) (hi : env.hasIconRes = Except.ok b)
    (h1 : env.beforeShotRes = Except.ok ()) (hc : env.clickRes = Except.ok ())
    (hw2 : env.waitTimeout500Res = Except.ok ()) (hd : env.dialogOpenRes = Except.ok b2)
    (h2 : env.afterShotRes = Except.ok ()) :
    browserOps (verify_date_picker env) = mainOps ++ [Op.close] := by
  rw [verify_ok_ok env hl hn, tryBody_all_ok env b b2 hg hs hw1 hi h1 hc hw2 hd h2]
  simp [browserOps, mainOps, bodyFull, bodyThroughDialogProbe, bodyThroughBeforeShot,
    bodyThroughIconProbe]

/-- Every possible operation trace of the program: it stops after `launch`,
after `new_page`, or runs `k` of the `try`-block operations followed by the
`finally` close. -/
lemma browserOps_shape (env : Env) :
    browserOps (verify_date_picker env) ∈
      [mainOps.take 1, mainOps.take 2, mainOps.take 3 ++ [Op.close],
       mainOps.take 4 ++ [Op.close], mainOps.take 5 ++ [Op.close],
       mainOps.take 6 ++ [Op.close], mainOps.take 7 ++ [Op.close],
       mainOps.take 8 ++ [Op.close], mainOps.take 9 ++ [Op.close],
       mainOps.take 10 ++ [Op.close], mainOps ++ [Op.close]] := by
  rcases hl : env.launchRes with e | ⟨⟩
  · have hb : browserOps (verify_date_picker env) = mainOps.take 1 := by
      simp [verify_date_picker, hl, browserOps, mainOps]
    rw [hb]; decide
  rcases hn : env.newPageRes with e | ⟨⟩
  · have hb : browserOps (verify_date_picker env) = mainOps.take 2 := by
      simp [verify_date_picker, hl, hn, browserOps, mainOps]
    rw [hb]; decide
  have hv := verify_ok_ok env hl hn
  rcases tryBody_cases env with ⟨e, _, htb⟩ | ⟨e, _, htb⟩ | ⟨e, _, htb⟩ | ⟨e, _, htb⟩ |
    ⟨b, e, _, _, htb⟩ | ⟨b, e, _, _, htb⟩ | ⟨b, e, _, _, htb⟩ | ⟨b, e, _, _, htb⟩ |
    ⟨b, b2, e, _, _, _, htb⟩ | ⟨b, b2, _, _, htb⟩
  · have hb : browserOps (verify_date_picker env) = mainOps.take 3 ++ [Op.close] := by
      rw [hv, htb]; simp [browserOps, mainOps]
    rw [hb]; decide
  · have hb : browserOps (verify_date_picker env) = mainOps.take 4 ++ [Op.close] := by
      rw [hv, htb]; simp [browserOps, mainOps, bodyThroughIconProbe]
    rw [hb]; decide
  · have hb : browserOps (verify_date_picker env) = mainOps.take 5 ++ [Op.close] := by
      rw [hv, htb]; simp [browserOps, mainOps, bodyThroughIconProbe]
    rw [hb]; decide
  · have hb : browserOps (verify_date_picker env) = mainOps.take 6 ++ [Op.close] := by
      rw [hv, htb]; simp [browserOps, mainOps, bodyThroughIconProbe]
    rw [hb]; decide
  · have hb : browserOps (verify_date_picker env) = mainOps.take 7 ++ [Op.close] := by
      rw [hv, htb]
      simp [browserOps, mainOps, bodyThroughBeforeShot, bodyThroughIconProbe]
    rw [hb]; decide
  · have hb : browserOps (verify_date_picker env) = mainOps.take 8 ++ [Op.close] := by
      rw [hv, htb]
      simp [browserOps, mainOps, bodyThroughDialogProbe, bodyThroughBeforeShot,
        bodyThroughIconProbe]
    rw [hb]; decide
  · have hb : browserOps (verify_date_picker env) = mainOps.take 9 ++ [Op.close] := by
      rw [hv, htb]
      simp [browserOps, mainOps, bodyThroughDialogProbe, bodyThroughBeforeShot,
        bodyThroughIconProbe]
    rw [hb]; decide
  · have hb : browserOps (verify_date_picker env) = mainOps.take 10 ++ [Op.close] := by
      rw [hv, htb]
      simp [browserOps, mainOps, bodyThroughDialogProbe, bodyThroughBeforeShot,
        bodyThroughIconProbe]
    rw [hb]; decide
  · have hb : browserOps (verify_date_picker env) = mainOps ++ [Op.close] := by
      rw [hv, htb]
      simp [browserOps, mainOps, bodyFull, bodyThroughDialogProbe,
        bodyThroughBeforeShot, bodyThroughIconProbe]
    rw [hb]; decide
  · have hb : browserOps (verify_date_picker env) = mainOps ++ [Op.close] := by
      rw [hv, htb]
      simp [browserOps, mainOps, bodyFull, bodyThroughDialogProbe,
        bodyThroughBeforeShot, bodyThroughIconProbe]
    rw [hb]; decide

/-- No operation trace of the program repeats an operation. -/
lemma browserOps_nodup (env : Env) : (browserOps (verify_date_picker env)).Nodup := by
  have h := browserOps_shape env
  simp only [List.mem_cons, List.not_mem_nil, or_false] at h
  rcases h with h | h | h | h | h | h | h | h | h | h | h <;> rw [h] <;> decide

/-- The screenshot paths of a run are the screenshot operations of its
operation trace. -/
lemma screenshotPaths_eq_ops (r : RunResult) :
    screenshotPaths r = (browserOps r).filterMap
      (fun o => match o with | Op.screenshot p => some p | _ => none) := by
  unfold screenshotPaths browserOps
  rw [List.filterMap_filterMap]
  congr 1
  funext e
  rcases e with o | s
  · cases o <;> rfl
  · rfl

/-- Classification of standard output once `launch` and `new_page` have
succeeded: on body success the two diagnostic lines; on a body abort a
prefix of them (zero, one or two diagnostic lines) followed by the error
line. -/
lemma stdout_cases (env : Env) (hl : env.launchRes = Except.ok ())
    (hn : env.newPageRes = Except.ok ()) :
    ((tryBody env).2 = none ∧ ∃ b b2,
       stdoutLines (verify_date_picker env) = [hasIconLine b, dialogOpenLine b2]) ∨
    (∃ e, (tryBody env).2 = some e ∧
       (stdoutLines (verify_date_picker env) = [errorLine e] ∨
        (∃ b, stdoutLines (verify_date_picker env) = [hasIconLine b, errorLine e]) ∨
        (∃ b b2, stdoutLines (verify_date_picker env) =
          [hasIconLine b, dialogOpenLine b2, errorLine e]))) := by
  have hv := verify_ok_ok env hl hn
  rcases tryBody_cases env with ⟨e, _, htb⟩ | ⟨e, _, htb⟩ | ⟨e, _, htb⟩ | ⟨e, _, htb⟩ |
    ⟨b, e, _, _, htb⟩ | ⟨b, e, _, _, htb⟩ | ⟨b, e, _, _, htb⟩ | ⟨b, e, _, _, htb⟩ |
    ⟨b, b2, e, _, _, _, htb⟩ | ⟨b, b2, _, _, htb⟩
  · refine Or.inr ⟨e, by rw [htb], Or.inl ?_⟩
    rw [hv, htb]; simp [stdoutLines]
  · refine Or.inr ⟨e, by rw [htb], Or.inl ?_⟩
    rw [hv, htb]; simp [stdoutLines, bodyThroughIconProbe]
  · refine Or.inr ⟨e, by rw [htb], Or.inl ?_⟩
    rw [hv, htb]; simp [stdoutLines, bodyThroughIconProbe]
  · refine Or.inr ⟨e, by rw [htb], Or.inl ?_⟩
    rw [hv, htb]; simp [stdoutLines, bodyThroughIconProbe]
  · refine Or.inr ⟨e, by rw [htb], Or.inr (Or.inl ⟨b, ?_⟩)⟩
    rw [hv, htb]; simp [stdoutLines, bodyThroughBeforeShot, bodyThroughIconProbe]
  · refine Or.inr ⟨e, by rw [htb], Or.inr (Or.inl ⟨b, ?_⟩)⟩
    rw [hv, htb]
    simp [stdoutLines, bodyThroughDialogProbe, bodyThroughBeforeShot,
      bodyThroughIconProbe]
  · refine Or.inr ⟨e, by rw [htb], Or.inr (Or.inl ⟨b, ?_⟩)⟩
    rw [hv, htb]
    simp [stdoutLines, bodyThroughDialogProbe, bodyThroughBeforeShot,
      bodyThroughIconProbe]
  · refine Or.inr ⟨e, by rw [htb], Or.inr (Or.inl ⟨b, ?_⟩)⟩
    rw [hv, htb]
    simp [stdoutLines, bodyThroughDialogProbe, bodyThroughBeforeShot,
      bodyThroughIconProbe]
  · refine Or.inr ⟨e, by rw [htb], Or.inr (Or.inr ⟨b, b2, ?_⟩)⟩
    rw [hv, htb]
    simp [stdoutLines, bodyFull, bodyThroughDialogProbe, bodyThroughBeforeShot,
      bodyThroughIconProbe]
  · refine Or.inl ⟨by rw [htb], b, b2, ?_⟩
    rw [hv, htb]
    simp [stdoutLines, bodyFull, bodyThroughDialogProbe, bodyThroughBeforeShot,
      bodyThroughIconProbe]

/-- C1 counterexample: an execution in which the browser launch succeeds,
yet `browser.close()` is never invoked and the exception escapes to the
caller — `new_page` raises before the `try`/`finally` block is entered, so
the final cleanup step never runs. -/
theorem C1_counterexample :
    envNewPageRaises.launchRes = Except.ok () ∧
    Event.op Op.close ∉ (verify_date_picker envNewPageRaises).events ∧
    (verify_date_picker envNewPageRaises).raised = some "new_page failed" := by
  decide

/-- C1 amended: in every execution in which both the browser launch *and*
the page creation succeed, the run raises nothing to the caller and its very
last event is the `finally`-block `browser.close()`, regardless of whether an
exception was raised during the probe sequence. -/
theorem C1_amended (env : Env) (hl : env.launchRes = Except.ok ())
    (hn : env.newPageRes = Except.ok ()) :
    (verify_date_picker env).raised = none ∧
    ∃ pre, (verify_date_picker env).events = pre ++ [Event.op Op.close] := by
  rw [verify_ok_ok env hl hn]
  refine ⟨rfl, [Event.op Op.launch, Event.op Op.newPage] ++ (tryBody env).1
      ++ (match (tryBody env).2 with
          | none => []
          | some e => [Event.print (errorLine e)]), ?_⟩
  simp

/-- C1 amended, witnessed on the all-succeeding environment. -/
theorem C1_amended_witness :
    (verify_date_picker envAllOk).raised = none ∧
    ∃ pre, (verify_date_picker envAllOk).events = pre ++ [Event.op Op.close] :=
  C1_amended envAllOk rfl rfl

/-- C2: an exception raised anywhere in the `try` block is caught: the run
consists of the prelude, the events accumulated before the abort, exactly one
`Error:` line, and the `finally` close — and nothing escapes to the caller. -/
theorem C2_catch_print_close (env : Env) (e : String)
    (hl : env.launchRes = Except.ok ()) (hn : env.newPageRes = Except.ok ())
    (he : (tryBody env).2 = some e) :
    (verify_date_picker env).events =
      [Event.op Op.launch, Event.op Op.newPage] ++ (tryBody env).1
        ++ [Event.print (errorLine e), Event.op Op.close] ∧
    (verify_date_picker env).raised = none := by
  rw [verify_ok_ok env hl hn]
  refine ⟨?_, rfl⟩
  rw [he]
  simp

/-- C2 witnessed on an environment where `page.goto` raises. -/
theorem C2_catch_print_close_witness :
    (verify_date_picker envGotoRefused).events =
      [Event.op Op.launch, Event.op Op.newPage] ++ (tryBody envGotoRefused).1
        ++ [Event.print (errorLine "net::ERR_CONNECTION_REFUSED"), Event.op Op.close] ∧
    (verify_date_picker envGotoRefused).raised = none :=
  C2_catch_print_close envGotoRefused "net::ERR_CONNECTION_REFUSED" rfl rfl rfl

/-- C3 counterexample: on the environment where every call succeeds, the
code's operation trace is not the ten-step sequence the claim lists — the
code additionally creates a page after launching and performs a fixed
2000 ms wait between the selector wait and the shadow-DOM probe. -/
theorem C3_counterexample :
    browserOps (verify_date_picker envAllOk) ≠ specClaimedOps := by
  decide

/-- C3 amended: on every all-succeeding environment the operation trace is
exactly launch, new page, goto, wait for the selector, 2000 ms wait, icon
probe, first screenshot, click, 500 ms wait, dialog probe, second
screenshot, close — in this order, each once. -/
theorem C3_amended (env : Env) (b b2 : Bool)
    (hl : env.launchRes = Except.ok ()) (hn : env.newPageRes = Except.ok ())
    (hg : env.gotoRes = Except.ok ()) (hs : env.waitSelectorRes = Except.ok ())
    (hw1 : env.waitTimeout2000Res = Except.ok ()) (hi : env.hasIconRes = Except.ok b)
    (h1 : env.beforeShotRes = Except.ok ()) (hc : env.clickRes = Except.ok ())
    (hw2 : env.waitTimeout500Res = Except.ok ()) (hd : env.dialogOpenRes = Except.ok b2)
    (h2 : env.afterShotRes = Except.ok ()) :
    browserOps (verify_date_picker env) = mainOps ++ [Op.close] :=
  browserOps_all_ok env b b2 hl hn hg hs hw1 hi h1 hc hw2 hd h2

/-- C3 amended, witnessed on the all-succeeding environment. -/
theorem C3_amended_witness :
    browserOps (verify_date_picker envAllOk) = mainOps ++ [Op.close] :=
  C3_amended envAllOk true true rfl rfl rfl rfl rfl rfl rfl rfl rfl rfl rfl

/-- C6 counterexample: two executions that differ only in whether the dialog
was already open before the click — so its open state toggles in one and not
in the other — are observationally identical: the script performs no read of
the pre-click state, hence does not determine (or report) the change across
the click. -/
theorem C6_counterexample :
    envDialogWasClosed.dialogOpenBeforeClick ≠ envDialogWasOpen.dialogOpenBeforeClick ∧
    verify_date_picker envDialogWasClosed = verify_date_picker envDialogWasOpen := by
  decide

/-- C6 amended: the script reads the dialog's open state exactly once, after
the click, and reports that post-click value; no dialog-state probe occurs
before the click. -/
theorem C6_amended (env : Env) (b b2 : Bool)
    (hl : env.launchRes = Except.ok ()) (hn : env.newPageRes = Except.ok ())
    (hg : env.gotoRes = Except.ok ()) (hs : env.waitSelectorRes = Except.ok ())
    (hw1 : env.waitTimeout2000Res = Except.ok ()) (hi : env.hasIconRes = Except.ok b)
    (h1 : env.beforeShotRes = Except.ok ()) (hc : env.clickRes = Except.ok ())
    (hw2 : env.waitTimeout500Res = Except.ok ()) (hd : env.dialogOpenRes = Except.ok b2)
    (h2 : env.afterShotRes = Except.ok ()) :
    stdoutLines (verify_date_picker env) = [hasIconLine b, dialogOpenLine b2] ∧
    ∃ pre post,
      browserOps (verify_date_picker env) =
        pre ++ Op.evaluate JsScript.dialogOpenProbe :: post ∧
      Op.evaluate JsScript.dialogOpenProbe ∉ pre ∧
      Op.evaluate JsScript.dialogOpenProbe ∉ post ∧
      Op.evaluate JsScript.clickIconButton ∈ pre := by
  constructor
  · rw [verify_ok_ok env hl hn, tryBody_all_ok env b b2 hg hs hw1 hi h1 hc hw2 hd h2]
    simp [stdoutLines, bodyFull, bodyThroughDialogProbe, bodyThroughBeforeShot,
      bodyThroughIconProbe]
  · refine ⟨[Op.launch, Op.newPage, Op.goto pageUrl, Op.waitForSelector fieldSelector,
      Op.waitForTimeout 2000, Op.evaluate JsScript.hasIconProbe,
      Op.screenshot beforePath, Op.evaluate JsScript.clickIconButton,
      Op.waitForTimeout 500], [Op.screenshot afterPath, Op.close],
      ?_, by decide, by decide, by decide⟩
    rw [browserOps_all_ok env b b2 hl hn hg hs hw1 hi h1 hc hw2 hd h2]
    decide

/-- C6 amended, witnessed on the all-succeeding environment. -/
theorem C6_amended_witness :
    stdoutLines (verify_date_picker envAllOk) = [hasIconLine true, dialogOpenLine true] ∧
    ∃ pre post,
      browserOps (verify_date_picker envAllOk) =
        pre ++ Op.evaluate JsScript.dialogOpenProbe :: post ∧
      Op.evaluate JsScript.dialogOpenProbe ∉ pre ∧
      Op.evaluate JsScript.dialogOpenProbe ∉ post ∧
      Op.evaluate JsScript.clickIconButton ∈ pre :=
  C6_amended envAllOk true true rfl rfl rfl rfl rfl rfl rfl rfl rfl rfl rfl

/-- C7: in every execution, each of the named operations — goto, the
selector wait, the shadow-DOM icon probe, each screenshot, the click
evaluate and the dialog-state evaluate — is invoked at most once. -/
theorem C7_no_retry (env : Env) :
    (browserOps (verify_date_picker env)).count (Op.goto pageUrl) ≤ 1 ∧
    (browserOps (verify_date_picker env)).count (Op.waitForSelector fieldSelector) ≤ 1 ∧
    (browserOps (verify_date_picker env)).count (Op.evaluate JsScript.hasIconProbe) ≤ 1 ∧
    (browserOps (verify_date_picker env)).count (Op.screenshot beforePath) ≤ 1 ∧
    (browserOps (verify_date_picker env)).count (Op.evaluate JsScript.clickIconButton) ≤ 1 ∧
    (browserOps (verify_date_picker env)).count (Op.evaluate JsScript.dialogOpenProbe) ≤ 1 ∧
    (browserOps (verify_date_picker env)).count (Op.screenshot afterPath) ≤ 1 := by
  have h := List.nodup_iff_count_le_one.mp (browserOps_nodup env)
  exact ⟨h _, h _, h _, h _, h _, h _, h _⟩

/-- C9: if `launch` succeeds and `new_page` raises, the exception propagates
to the caller uncaught, `browser.close` is never invoked, and nothing is
printed — `new_page` runs before the `try`/`finally` block. -/
theorem C9_newPage_failure_propagates (env : Env) (e : String)
    (hl : env.launchRes = Except.ok ()) (hn : env.newPageRes = Except.error e) :
    (verify_date_picker env).raised = some e ∧
    Event.op Op.close ∉ (verify_date_picker env).events ∧
    stdoutLines (verify_date_picker env) = [] := by
  have hv : verify_date_picker env =
      { events := [Event.op Op.launch, Event.op Op.newPage], raised := some e } := by
    simp [verify_date_picker, hl, hn]
  rw [hv]
  exact ⟨rfl, by simp, rfl⟩

/-- C9 witnessed on a concrete environment where `new_page` raises. -/
theorem C9_newPage_failure_propagates_witness :
    (verify_date_picker envPageCreationRaises).raised = some "browser has been closed" ∧
    Event.op Op.close ∉ (verify_date_picker envPageCreationRaises).events ∧
    stdoutLines (verify_date_picker envPageCreationRaises) = [] :=
  C9_newPage_failure_propagates envPageCreationRaises "browser has been closed" rfl rfl

/-- C4 counterexample: when the first screenshot raises after the icon line
has been printed, the console output is one diagnostic line *and* one error
line — neither exactly two diagnostic lines nor a lone error message. -/
theorem C4_counterexample :
    stdoutLines (verify_date_picker envBeforeShotRaises) =
      [hasIconLine true, errorLine "screenshot failed"] ∧
    ¬ specConsoleShape (stdoutLines (verify_date_picker envBeforeShotRaises)) := by
  have h : stdoutLines (verify_date_picker envBeforeShotRaises) =
      [hasIconLine true, errorLine "screenshot failed"] := by decide
  refine ⟨h, ?_⟩
  rw [h]
  rintro (⟨b, b2, hq⟩ | ⟨e, hq⟩)
  · cases b <;> cases b2 <;>
      simp_all [hasIconLine, dialogOpenLine, errorLine, pyBool]
  · simp_all [hasIconLine, errorLine]

/-- C4 amended: when `launch` and `new_page` succeed the process exits
without crashing, and the console output is either exactly the two
diagnostic lines (on body success) or a prefix of them — zero, one or two —
followed by exactly one error line (on a body exception). -/
theorem C4_amended (env : Env)
    (hl : env.launchRes = Except.ok ()) (hn : env.newPageRes = Except.ok ()) :
    (verify_date_picker env).raised = none ∧
    ((tryBody env).2 = none →
      ∃ b b2, stdoutLines (verify_date_picker env) = [hasIconLine b, dialogOpenLine b2]) ∧
    ∀ e, (tryBody env).2 = some e →
      ∃ ds, stdoutLines (verify_date_picker env) = ds ++ [errorLine e] ∧
        (ds = [] ∨ (∃ b, ds = [hasIconLine b]) ∨
         ∃ b b2, ds = [hasIconLine b, dialogOpenLine b2]) := by
  refine ⟨by rw [verify_ok_ok env hl hn], ?_, ?_⟩
  · intro hnone
    rcases stdout_cases env hl hn with ⟨_, b, b2, hq⟩ | ⟨e, hsome, _⟩
    · exact ⟨b, b2, hq⟩
    · rw [hnone] at hsome
      exact absurd hsome (by simp)
  · intro e hsome
    rcases stdout_cases env hl hn with ⟨hnone, _⟩ | ⟨e2, hsome2, hq⟩
    · rw [hnone] at hsome
      exact absurd hsome (by simp)
    · rw [hsome] at hsome2
      obtain rfl : e = e2 := Option.some.inj hsome2
      rcases hq with hq | ⟨b, hq⟩ | ⟨b, b2, hq⟩
      · exact ⟨[], by simpa using hq, Or.inl rfl⟩
      · exact ⟨[hasIconLine b], by simpa using hq, Or.inr (Or.inl ⟨b, rfl⟩)⟩
      · exact ⟨[hasIconLine b, dialogOpenLine b2], by simpa using hq,
          Or.inr (Or.inr ⟨b, b2, rfl⟩)⟩

/-- C4 amended, witnessed on the all-succeeding environment. -/
theorem C4_amended_witness :
    (verify_date_picker envAllOk).raised = none ∧
    ((tryBody envAllOk).2 = none →
      ∃ b b2, stdoutLines (verify_date_picker envAllOk) =
        [hasIconLine b, dialogOpenLine b2]) ∧
    ∀ e, (tryBody envAllOk).2 = some e →
      ∃ ds, stdoutLines (verify_date_picker envAllOk) = ds ++ [errorLine e] ∧
        (ds = [] ∨ (∃ b, ds = [hasIconLine b]) ∨
         ∃ b b2, ds = [hasIconLine b, dialogOpenLine b2]) :=
  C4_amended envAllOk rfl rfl

/-- C5 counterexample: when `page.goto` raises, the execution requests no
screenshot at all, so not every execution writes the two screenshot
files. -/
theorem C5_counterexample :
    screenshotPaths (verify_date_picker envGotoDown) = [] ∧
    ([] : List String) ≠ [beforePath, afterPath] := by
  decide

/-- C5 amended: every execution requests a prefix of the two fixed
screenshot paths (so never anything else, never out of order, never more
than two), and an execution whose probe sequence completes requests exactly
the two. -/
theorem C5_amended (env : Env) :
    screenshotPaths (verify_date_picker env) <+: [beforePath, afterPath] ∧
    (env.launchRes = Except.ok () → env.newPageRes = Except.ok () →
      (tryBody env).2 = none →
      screenshotPaths (verify_date_picker env) = [beforePath, afterPath]) := by
  constructor
  · rw [screenshotPaths_eq_ops]
    have h := browserOps_shape env
    simp only [List.mem_cons, List.not_mem_nil, or_false] at h
    rcases h with h | h | h | h | h | h | h | h | h | h | h <;> rw [h] <;> decide
  · intro hl hn hnone
    rcases tryBody_cases env with ⟨e, _, htb⟩ | ⟨e, _, htb⟩ | ⟨e, _, htb⟩ | ⟨e, _, htb⟩ |
      ⟨b, e, _, _, htb⟩ | ⟨b, e, _, _, htb⟩ | ⟨b, e, _, _, htb⟩ | ⟨b, e, _, _, htb⟩ |
      ⟨b, b2, e, _, _, _, htb⟩ | ⟨b, b2, _, _, htb⟩
    · rw [htb] at hnone; exact absurd hnone (by simp)
    · rw [htb] at hnone; exact absurd hnone (by simp)
    · rw [htb] at hnone; exact absurd hnone (by simp)
    · rw [htb] at hnone; exact absurd hnone (by simp)
    · rw [htb] at hnone; exact absurd hnone (by simp)
    · rw [htb] at hnone; exact absurd hnone (by simp)
    · rw [htb] at hnone; exact absurd hnone (by simp)
    · rw [htb] at hnone; exact absurd hnone (by simp)
    · rw [htb] at hnone; exact absurd hnone (by simp)
    · rw [verify_ok_ok env hl hn, htb]
      simp [screenshotPaths, bodyFull, bodyThroughDialogProbe, bodyThroughBeforeShot,
        bodyThroughIconProbe]

/-- C5 amended, witnessed: the all-succeeding run requests exactly the two
fixed paths. -/
theorem C5_amended_witness :
    screenshotPaths (verify_date_picker envAllOk) = [beforePath, afterPath] :=
  (C5_amended envAllOk).2 rfl rfl rfl

/-- C8 counterexample: when the second screenshot raises, the outputs before
the error line are icon line, before-click file, dialog line, after-click
file — which is not a prefix of the order the claim states (icon line,
before-click file, after-click file, dialog line), for any boolean values. -/
theorem C8_counterexample :
    outputs (verify_date_picker envAfterShotRaises) =
      [OutItem.line (hasIconLine true), OutItem.file beforePath,
       OutItem.line (dialogOpenLine true), OutItem.file afterPath,
       OutItem.line (errorLine "disk full")] ∧
    ∀ b b2,
      ¬ ([OutItem.line (hasIconLine true), OutItem.file beforePath,
          OutItem.line (dialogOpenLine true), OutItem.file afterPath] <+:
         specSuccessOutputs b b2) := by
  decide

/-- C8 amended: on a body exception the outputs are a prefix of the code's
success-path output order — icon line, before-click file, dialog line,
after-click file — followed by the single error line, with nothing after
it. -/
theorem C8_amended (env : Env) (e : String)
    (hl : env.launchRes = Except.ok ()) (hn : env.newPageRes = Except.ok ())
    (he : (tryBody env).2 = some e) :
    ∃ pre b b2,
      outputs (verify_date_picker env) = pre ++ [OutItem.line (errorLine e)] ∧
      pre <+: codeSuccessOutputs b b2 := by
  have hv := verify_ok_ok env hl hn
  rcases tryBody_cases env with ⟨e2, _, htb⟩ | ⟨e2, _, htb⟩ | ⟨e2, _, htb⟩ | ⟨e2, _, htb⟩ |
    ⟨b, e2, _, _, htb⟩ | ⟨b, e2, _, _, htb⟩ | ⟨b, e2, _, _, htb⟩ | ⟨b, e2, _, _, htb⟩ |
    ⟨b, b2, e2, _, _, _, htb⟩ | ⟨b, b2, _, _, htb⟩
  · rw [htb] at he
    obtain rfl : e2 = e := Option.some.inj he
    refine ⟨[], true, true, ?_, ⟨codeSuccessOutputs true true, by simp⟩⟩
    rw [hv, htb]; simp [outputs]
  · rw [htb] at he
    obtain rfl : e2 = e := Option.some.inj he
    refine ⟨[], true, true, ?_, ⟨codeSuccessOutputs true true, by simp⟩⟩
    rw [hv, htb]; simp [outputs, bodyThroughIconProbe]
  · rw [htb] at he
    obtain rfl : e2 = e := Option.some.inj he
    refine ⟨[], true, true, ?_, ⟨codeSuccessOutputs true true, by simp⟩⟩
    rw [hv, htb]; simp [outputs, bodyThroughIconProbe]
  · rw [htb] at he
    obtain rfl : e2 = e := Option.some.inj he
    refine ⟨[], true, true, ?_, ⟨codeSuccessOutputs true true, by simp⟩⟩
    rw [hv, htb]; simp [outputs, bodyThroughIconProbe]
  · rw [htb] at he
    obtain rfl : e2 = e := Option.some.inj he
    refine ⟨[OutItem.line (hasIconLine b), OutItem.file beforePath], b, true, ?_,
      ⟨[OutItem.line (dialogOpenLine true), OutItem.file afterPath],
       by simp [codeSuccessOutputs]⟩⟩
    rw [hv, htb]
    simp [outputs, bodyThroughBeforeShot, bodyThroughIconProbe]
  · rw [htb] at he
    obtain rfl : e2 = e := Option.some.inj he
    refine ⟨[OutItem.line (hasIconLine b), OutItem.file beforePath], b, true, ?_,
      ⟨[OutItem.line (dialogOpenLine true), OutItem.file afterPath],
       by simp [codeSuccessOutputs]⟩⟩
    rw [hv, htb]
    simp [outputs, bodyThroughDialogProbe, bodyThroughBeforeShot, bodyThroughIconProbe]
  · rw [htb] at he
    obtain rfl : e2 = e := Option.some.inj he
    refine ⟨[OutItem.line (hasIconLine b), OutItem.file beforePath], b, true, ?_,
      ⟨[OutItem.line (dialogOpenLine true), OutItem.file afterPath],
       by simp [codeSuccessOutputs]⟩⟩
    rw [hv, htb]
    simp [outputs, bodyThroughDialogProbe, bodyThroughBeforeShot, bodyThroughIconProbe]
  · rw [htb] at he
    obtain rfl : e2 = e := Option.some.inj he
    refine ⟨[OutItem.line (hasIconLine b), OutItem.file beforePath], b, true, ?_,
      ⟨[OutItem.line (dialogOpenLine true), OutItem.file afterPath],
       by simp [codeSuccessOutputs]⟩⟩
    rw [hv, htb]
    simp [outputs, bodyThroughDialogProbe, bodyThroughBeforeShot, bodyThroughIconProbe]
  · rw [htb] at he
    obtain rfl : e2 = e := Option.some.inj he
    refine ⟨codeSuccessOutputs b b2, b, b2, ?_, ⟨[], by simp⟩⟩
    rw [hv, htb]
    simp [outputs, codeSuccessOutputs, bodyFull, bodyThroughDialogProbe,
      bodyThroughBeforeShot, bodyThroughIconProbe]
  · rw [htb] at he
    exact absurd he (by simp)

/-- C8 amended, witnessed on an environment where the click raises after the
first screenshot. -/
theorem C8_amended_witness :
    ∃ pre b b2,
      outputs (verify_date_picker envClickRaises) =
        pre ++ [OutItem.line (errorLine "button is null")] ∧
      pre <+: codeSuccessOutputs b b2 :=
  C8_amended envClickRaises "button is null" rfl rfl rfl

/-- C10: the run is a function of the call outcomes alone — two environments
agreeing on every call outcome, however much their ambient data (pre-click
dialog state, command line) differ, produce identical stdout, identical
screenshot requests, and identical raised exceptions. -/
theorem C10_deterministic (env1 env2 : Env)
    (h1 : env1.launchRes = env2.launchRes)
    (h2 : env1.newPageRes = env2.newPageRes)
    (h3 : env1.gotoRes = env2.gotoRes)
    (h4 : env1.waitSelectorRes = env2.waitSelectorRes)
    (h5 : env1.waitTimeout2000Res = env2.waitTimeout2000Res)
    (h6 : env1.hasIconRes = env2.hasIconRes)
    (h7 : env1.beforeShotRes = env2.beforeShotRes)
    (h8 : env1.clickRes = env2.clickRes)
    (h9 : env1.waitTimeout500Res = env2.waitTimeout500Res)
    (h10 : env1.dialogOpenRes = env2.dialogOpenRes)
    (h11 : env1.afterShotRes = env2.afterShotRes) :
    stdoutLines (verify_date_picker env1) = stdoutLines (verify_date_picker env2) ∧
    screenshotPaths (verify_date_picker env1) = screenshotPaths (verify_date_picker env2) ∧
    (verify_date_picker env1).raised = (verify_date_picker env2).raised := by
  have hq : verify_date_picker env1 = verify_date_picker env2 := by
    cases env1
    cases env2
    dsimp only at h1 h2 h3 h4 h5 h6 h7 h8 h9 h10 h11
    subst h1 h2 h3 h4 h5 h6 h7 h8 h9 h10 h11
    rfl
  rw [hq]
  exact ⟨rfl, rfl, rfl⟩

/-- C10 witnessed on two environments that differ in their ambient command
line and pre-click dialog state but agree on every call outcome. -/
theorem C10_deterministic_witness :
    (stdoutLines (verify_date_picker envAllOk) =
       stdoutLines (verify_date_picker envOtherAmbient) ∧
     screenshotPaths (verify_date_picker envAllOk) =
       screenshotPaths (verify_date_picker envOtherAmbient) ∧
     (verify_date_picker envAllOk).raised = (verify_date_picker envOtherAmbient).raised) ∧
    envAllOk.commandLineArgs ≠ envOtherAmbient.commandLineArgs :=
  ⟨C10_deterministic envAllOk envOtherAmbient rfl rfl rfl rfl rfl rfl rfl rfl rfl rfl rfl,
   by decide⟩

end VerifyScript
